import Mathlib

/-!
Shallow embedding of the Customer composite microservice
(`src/main.py`, `src/models/customer.py`, `src/middleware/auth.py`,
`src/utils/jwt_utils.py`) for checking the natural-language specification.

Downstream HTTP services (the Customer and Address atomic services) are
modelled as oracles: each handler takes, for every outbound call it can make,
the response that call would receive (`DSResp`), and returns its outcome
together with the ordered list of downstream requests it actually issued.
Python's `raise HTTPException(status, detail)` is modelled as
`Except.error (ApiError.http status detail)`; an unhandled Python exception
(which FastAPI turns into HTTP 500) is `ApiError.exn`.
-/

namespace CustomerComposite

/-! ## A model of Python/JSON values (for `request.json()` payloads) -/

/-- JSON values as produced by `request.json()` / consumed by `json.dumps`. -/
inductive Json where
  | null : Json
  | bool : Bool → Json
  | num : Int → Json
  | str : String → Json
  | arr : List Json → Json
  | obj : List (String × Json) → Json

/-- Python truthiness (`if data:`) of a JSON value. -/
def Json.truthy : Json → Bool
  | .null => false
  | .bool b => b
  | .num n => n != 0
  | .str s => s != ""
  | .arr l => !l.isEmpty
  | .obj l => !l.isEmpty

/-- Python `dict.get(key)` on a JSON object (returns `none` on non-objects;
call sites that would raise `AttributeError` on non-dicts check the shape
themselves). -/
def Json.get? (j : Json) (k : String) : Option Json :=
  match j with
  | .obj fields => fields.lookup k
  | _ => none

/-! ## Python `base64.b64decode` (non-strict) and `bytes.decode("utf-8")`

`pubsub_push` runs `base64.b64decode(data).decode("utf-8")`.  These model the
CPython semantics: `a2b_base64` in non-strict mode skips characters outside
the base64 alphabet, stops at a completed padding group, and raises
`binascii.Error` (here `none`) when the stream ends mid-quantum; `b64decode`
of a `str` first requires it to be pure ASCII. -/

/-- Value of a base64 alphabet character, `none` for non-alphabet characters
(which non-strict `a2b_base64` silently skips). -/
def b64Val (c : Char) : Option Nat :=
  if 'A' ≤ c ∧ c ≤ 'Z' then some (c.toNat - 65)
  else if 'a' ≤ c ∧ c ≤ 'z' then some (c.toNat - 97 + 26)
  else if '0' ≤ c ∧ c ≤ '9' then some (c.toNat - 48 + 52)
  else if c = '+' then some 62
  else if c = '/' then some 63
  else none

/-- CPython `binascii.a2b_base64` (non-strict): arguments are the remaining
characters, the position inside the current 4-character quantum, the bits
carried over from the previous character, and the number of padding characters
seen in the current quantum.  `none` models `binascii.Error`. -/
def a2bBase64 : List Char → Nat → Nat → Nat → Option (List Nat)
  | [], quadPos, _, _ => if quadPos = 0 then some [] else none
  | c :: rest, quadPos, leftchar, pads =>
    if c = '=' then
      if 2 ≤ quadPos then
        if 4 ≤ quadPos + pads + 1 then some []
        else a2bBase64 rest quadPos leftchar (pads + 1)
      else a2bBase64 rest quadPos leftchar pads
    else
      match b64Val c with
      | none => a2bBase64 rest quadPos leftchar pads
      | some d =>
        match quadPos with
        | 0 => a2bBase64 rest 1 d 0
        | 1 => (a2bBase64 rest 2 (d % 16) 0).map (fun bs => (leftchar * 4 + d / 16) :: bs)
        | 2 => (a2bBase64 rest 3 (d % 4) 0).map (fun bs => (leftchar * 16 + d / 4) :: bs)
        | _ => (a2bBase64 rest 0 0 0).map (fun bs => (leftchar * 64 + d) :: bs)

/-- Python `base64.b64decode` applied to a `str`: the string must be ASCII
(else `ValueError`), then `a2b_base64` runs in non-strict mode. -/
def pyB64Decode (s : String) : Option (List Nat) :=
  if s.toList.all (fun c => c.toNat < 128) then a2bBase64 s.toList 0 0 0
  else none

/-- Python `bytes.decode("utf-8")` success predicate: the byte list is a
well-formed UTF-8 encoding (rejecting overlong forms, surrogates and
out-of-range code points, as CPython does). -/
def utf8Valid : List Nat → Bool
  | [] => true
  | b :: rest =>
    if b < 128 then utf8Valid rest
    else if b < 194 then false
    else if b < 224 then
      match rest with
      | b1 :: r => (decide (128 ≤ b1) && decide (b1 < 192)) && utf8Valid r
      | [] => false
    else if b < 240 then
      match rest with
      | b1 :: b2 :: r =>
        (decide ((if b = 224 then 160 else 128) ≤ b1)
          && decide (b1 < (if b = 237 then 160 else 192))
          && decide (128 ≤ b2) && decide (b2 < 192)) && utf8Valid r
      | _ => false
    else if b < 245 then
      match rest with
      | b1 :: b2 :: b3 :: r =>
        (decide ((if b = 240 then 144 else 128) ≤ b1)
          && decide (b1 < (if b = 244 then 144 else 192))
          && decide (128 ≤ b2) && decide (b2 < 192)
          && decide (128 ≤ b3) && decide (b3 < 192)) && utf8Valid r
      | _ => false
    else false

/-! ## Data model (`src/models/customer.py`; `models/address.py` is imported
by `src/main.py` but absent from `src/`, so the Address types are modelled
from the spec) -/

/-- Modelled from the spec: `models/address.py` is missing from `src/`.
Spec §3: "Address: `street`, `city`, `state`, `postal_code`, `country`". -/
structure AddressBase where
  street : String
  city : String
  state : String
  postal_code : String
  country : String
deriving DecidableEq

/-- Modelled from the spec: `models/address.py` is missing from `src/`.
`AddressCreate` carries the five address fields plus an optional
`university_id` (spec §4.1: "If the address payload carries its own
`university_id` that conflicts with the path parameter..."). -/
structure AddressCreate where
  base : AddressBase
  university_id : Option String
deriving DecidableEq

/-- The flat dict sent to `POST {ADDRESS_SERVICE_URL}/addresses`
(`{"university_id": ..., street..country}`); also stands in for the
spec-modelled `AddressRead` echoed back by the Address atomic service. -/
structure AddressPayload where
  university_id : String
  base : AddressBase
deriving DecidableEq

/-- The core customer fields of `CustomerBase` (`src/models/customer.py`)
minus the embedded `address` list, i.e. exactly the dict
`customer.model_dump(mode="json")` after `payload.pop("address")`.
`birth_date` is kept in its JSON (string) form. -/
structure CustomerCore where
  first_name : String
  middle_name : Option String
  last_name : String
  university_id : Option String
  email : String
  phone : Option String
  birth_date : Option String
  status : String
deriving DecidableEq

/-- `CustomerCreate` (`src/models/customer.py`): the core fields plus the
embedded address list. -/
structure CustomerCreate where
  core : CustomerCore
  address : List AddressBase
deriving DecidableEq

/-- `CustomerUpdate` (`src/models/customer.py`): all-optional partial update.
(The `exclude_unset` dump is not inspected by any claim; the structure only
records what PATCH forwards.) -/
structure CustomerUpdate where
  first_name : Option String := none
  middle_name : Option String := none
  last_name : Option String := none
  university_id : Option String := none
  email : Option String := none
  phone : Option String := none
  address : Option (List AddressBase) := none
  birth_date : Option String := none
  status : Option String := none
deriving DecidableEq

/-- The composite `CustomerRead` view (`src/models/customer.py`) as far as its
content is determined: the core fields plus the aggregated address list.
`customer_id`, `created_at` and `updated_at` are freshly generated
(`uuid4()` / `datetime.utcnow`) on every construction and carry no
input-dependent information, so they are not modelled. -/
structure CustomerRead where
  core : CustomerCore
  address : List AddressBase
deriving DecidableEq

/-- The `UniversityIDType` pattern of `src/models/customer.py`:
`^[A-Za-z]{2,4}\d{3,4}$`. -/
def isUniversityIdFormat (s : String) : Bool :=
  let cs := s.toList
  let letters := cs.takeWhile (fun c => c.isAlpha)
  let digits := cs.drop letters.length
  decide (2 ≤ letters.length) && decide (letters.length ≤ 4) &&
  decide (3 ≤ digits.length) && decide (digits.length ≤ 4) &&
  digits.all (fun c => c.isDigit)

/-- A character of the `\w`, `.`, `-` classes used by the `EduEmail` pattern. -/
def isEmailChar (c : Char) : Bool :=
  c.isAlphanum || c = '_' || c = '.' || c = '-'

/-- The `EduEmail` pattern of `src/models/customer.py`:
`^[\w\.-]+@[\w\.-]+\.edu$`. -/
def isEduEmail (s : String) : Bool :=
  let cs := s.toList
  let lp := cs.takeWhile (fun c => !(c = '@'))
  let dm := cs.drop (lp.length + 1)
  decide (0 < lp.length) && decide (lp.length < cs.length) && lp.all isEmailChar &&
  decide (5 ≤ dm.length) && dm.all isEmailChar &&
  decide (dm.drop (dm.length - 4) = ['.', 'e', 'd', 'u'])

/-- Pydantic validation of a `CustomerCreate` body: the `university_id`
(when present) and the `email` must match their patterns. -/
def CustomerCreate.valid (c : CustomerCreate) : Bool :=
  (match c.core.university_id with
   | some u => isUniversityIdFormat u
   | none => true) && isEduEmail c.core.email

/-! ## HTTP / downstream-call model -/

/-- The response a downstream `httpx` call receives: either a transport
failure (`httpx.RequestError`) or a response with a status code, a raw text
body (`resp.text`) and a parsed body (`resp.json()`), typed per call site. -/
inductive DSResp (α : Type) where
  | transportError : DSResp α
  | resp : Nat → String → α → DSResp α

/-- Composite-level error outcomes.  `http s d` is
`raise HTTPException(status_code=s, detail=d)`; `unauthorizedGate d` is the
HTTP-401 `HTTPException` raised by the Auth-Gate dependency
`get_current_user` (`src/middleware/auth.py`), kept distinct so that
gate-produced 401s can be told apart from 401s forwarded verbatim from a
downstream service; `exn m` is an unhandled Python exception (HTTP 500). -/
inductive ApiError where
  | http : Nat → String → ApiError
  | unauthorizedGate : String → ApiError
  | exn : String → ApiError
deriving DecidableEq

/-- A downstream request issued by a composite handler, with the payload it
carried where relevant. -/
inductive DSRequest where
  | customerGet : String → DSRequest
  | customerPost : CustomerCore → DSRequest
  | customerDelete : String → DSRequest
  | addressPost : AddressPayload → DSRequest
  | addressDeleteAll : String → DSRequest
deriving DecidableEq

/-! ## Pub/Sub configuration and `publish_event` (`src/main.py` lines 31-47,
162-200) -/

/-- `os.getenv(name, default)`: the environment value when the variable is
set, else the default. -/
def getenvOr (env : Option String) (default : String) : String :=
  env.getD default

/-- `PROJECT_ID = os.getenv("GCP_PROJECT_ID", "cloud-computing-478817")`. -/
def PROJECT_ID (env : Option String) : String :=
  getenvOr env "cloud-computing-478817"

/-- `PUBSUB_TOPIC = os.getenv("PUBSUB_TOPIC_CUSTOMER_EVENTS", "customerTopic")`. -/
def PUBSUB_TOPIC (env : Option String) : String :=
  getenvOr env "customerTopic"

/-- Module-initialisation guard `if PROJECT_ID and PUBSUB_TOPIC:` —
the publisher client and topic path are created iff both resolved strings are
truthy (non-empty); otherwise `publisher = None` and `TOPIC_PATH = None`. -/
def publisherEnabled (projectEnv topicEnv : Option String) : Bool :=
  (PROJECT_ID projectEnv != "") && (PUBSUB_TOPIC topicEnv != "")

/-- One call to `publisher.publish(TOPIC_PATH, data=..., **attributes)`:
the serialized payload and the routing attributes attached to it
(`event_type` always, `university_id` when truthy in the payload). -/
structure PublishCall where
  event_type : String
  data : Json
  university_id : Option Json

/-- `publish_event(event_type, payload)` (`src/main.py`): returns the list of
publish calls performed — empty when `publisher`/`TOPIC_PATH` are unset
(the logged no-op branch), a single call otherwise.  The hand-off is
fire-and-forget; its asynchronous outcome is only logged and is not part of
the handler-visible state. -/
def publish_event (enabled : Bool) (event_type : String) (payload : Json) :
    List PublishCall :=
  if enabled then
    [{ event_type := event_type, data := payload,
       university_id :=
         match payload.get? "university_id" with
         | some u => if u.truthy then some u else none
         | none => none }]
  else []

/-! ## Token Service and Auth Gate (`src/utils/jwt_utils.py`,
`src/middleware/auth.py`) -/

/-- The claims dict passed to `create_access_token`
(`{"sub": ..., "email": ..., "name": ...}` built in `auth_google`). -/
structure TokenPayload where
  sub : String
  email : String
  name : String
deriving DecidableEq

/-- The claims dict returned by a successful `jwt.decode`: the embedded
claims plus the `exp` timestamp (seconds). -/
structure VerifiedClaims where
  sub : String
  email : String
  name : String
  exp : Int
deriving DecidableEq

/-- Symbolic model of the HS256 MAC over the encoded claims: an unforgeable,
collision-free function of the signing secret and the signed content. -/
def hmacSign (secret : String) (payload : TokenPayload) (exp : Int) :
    String × TokenPayload × Int :=
  (secret, payload, exp)

/-- A signed token as produced by `jwt.encode`: the claims, the expiry, and
the signature over them. -/
structure Jwt where
  payload : TokenPayload
  exp : Int
  sig : String × TokenPayload × Int
deriving DecidableEq

/-- `JWT_EXPIRE_MINUTES = int(os.getenv("JWT_EXPIRE_MINUTES", "60"))`. -/
def JWT_EXPIRE_MINUTES (env : Option Int) : Int :=
  env.getD 60

/-- `create_access_token` (`src/utils/jwt_utils.py`): embeds the claims and
`exp = now + timedelta(minutes=JWT_EXPIRE_MINUTES)` and signs with the
configured secret.  Time is in seconds, so the TTL contributes
`ttlMinutes * 60`. -/
def create_access_token (secret : String) (ttlMinutes : Int) (now : Int)
    (data : TokenPayload) : Jwt :=
  { payload := data, exp := now + ttlMinutes * 60,
    sig := hmacSign secret data (now + ttlMinutes * 60) }

/-- Modelled from the spec: `verify_access_token` delegates entirely to the
external `jose` library's `jwt.decode`, whose semantics are taken from spec
§4.4: "fails with `Unauthorized` if signature invalid, issuer/algorithm
mismatched, or token expired. On success returns the embedded claims."
A token is expired once the current time has reached its `exp`. -/
def verify_access_token (secret : String) (now : Int) (t : Jwt) :
    Except String VerifiedClaims :=
  if t.sig = hmacSign secret t.payload t.exp then
    if t.exp ≤ now then Except.error "ExpiredSignatureError"
    else Except.ok ⟨t.payload.sub, t.payload.email, t.payload.name, t.exp⟩
  else Except.error "JWTError"

/-- The `Authorization` header of an inbound request: absent, present but not
of the `Bearer <token>` shape, or a bearer token. -/
inductive AuthHeader where
  | missing : AuthHeader
  | malformed : String → AuthHeader
  | bearer : Jwt → AuthHeader

/-- `get_current_user` (`src/middleware/auth.py`): 401 when the header is
missing or lacks the `Bearer ` scheme; otherwise verifies the token and maps
any verification failure to 401. -/
def get_current_user (secret : String) (now : Int) (h : AuthHeader) :
    Except ApiError VerifiedClaims :=
  match h with
  | .missing =>
      Except.error (ApiError.unauthorizedGate "Missing or invalid Authorization header")
  | .malformed _ =>
      Except.error (ApiError.unauthorizedGate "Missing or invalid Authorization header")
  | .bearer t =>
      match verify_access_token secret now t with
      | Except.error _ =>
          Except.error (ApiError.unauthorizedGate "Invalid or expired token")
      | Except.ok payload => Except.ok payload

/-! ## Downstream Client wrappers (`src/main.py` lines 217-251) -/

/-- `fetch_customer_atomic` (`src/main.py`): GET on the Customer atomic
service; transport failure → 502, 404 → "Customer not found", other ≥400 →
forwarded status/body, 2xx → parsed body. -/
def fetch_customer_atomic (r : DSResp CustomerCore) :
    Except ApiError CustomerCore :=
  match r with
  | .transportError =>
      Except.error (ApiError.http 502 "Customer service unavailable")
  | .resp status text body =>
      if status = 404 then Except.error (ApiError.http 404 "Customer not found")
      else if 400 ≤ status then Except.error (ApiError.http status text)
      else Except.ok body

/-- `fetch_addresses_atomic` (`src/main.py`): GET the address list; transport
failure → 502, ≥400 → forwarded status/body (no special 404 branch), 2xx →
parsed list. -/
def fetch_addresses_atomic (r : DSResp (List AddressBase)) :
    Except ApiError (List AddressBase) :=
  match r with
  | .transportError =>
      Except.error (ApiError.http 502 "Address service unavailable")
  | .resp status text body =>
      if 400 ≤ status then Except.error (ApiError.http status text)
      else Except.ok body

/-! ## Composite handlers (`src/main.py`) -/

/-- The address-creation loop of `create_customer` (`src/main.py` lines
294-324): for the i-th submitted address the payload
`{"university_id": uni_id, **addr}` is POSTed to the Address atomic service;
transport failure → 502, ≥400 → forwarded, success → the echoed five address
fields are appended to `created_addresses`.  Returns the outcome and the
ordered address-POST trace.  `addrResp i` is the response the i-th POST
receives. -/
def create_addresses_loop (uni_id : String)
    (addrResp : Nat → DSResp AddressBase) :
    Nat → List AddressBase → Except ApiError (List AddressBase) × List DSRequest
  | _, [] => (Except.ok [], [])
  | i, addr :: rest =>
    match addrResp i with
    | .transportError =>
        (Except.error (ApiError.http 502 "Address service unavailable"),
         [DSRequest.addressPost ⟨uni_id, addr⟩])
    | .resp status text addr_data =>
        if 400 ≤ status then
          (Except.error (ApiError.http status text),
           [DSRequest.addressPost ⟨uni_id, addr⟩])
        else
          match create_addresses_loop uni_id addrResp (i + 1) rest with
          | (Except.ok created, trace) =>
              (Except.ok (addr_data :: created),
               DSRequest.addressPost ⟨uni_id, addr⟩ :: trace)
          | (Except.error e, trace) =>
              (Except.error e, DSRequest.addressPost ⟨uni_id, addr⟩ :: trace)

/-- `create_customer` (`POST /customers`, `src/main.py` lines 255-347).
Missing `university_id` → 400 before any downstream call.  Otherwise the
core fields are POSTed to the Customer atomic service (transport failure →
502, ≥400 → forwarded); `uni_id` is read from the echoed body
(`customer_data["university_id"]`, a `KeyError` → 500 if absent); each
submitted address is then created in turn; on full success the aggregated
`CustomerRead` (route status 201) is built from the echoed customer fields
and the echoed addresses.  The trailing `publish_event` is fire-and-forget
and never alters the response. -/
def create_customer (customer : CustomerCreate)
    (custResp : DSResp CustomerCore) (addrResp : Nat → DSResp AddressBase) :
    Except ApiError CustomerRead × List DSRequest :=
  match customer.core.university_id with
  | none =>
      (Except.error (ApiError.http 400 "university_id is required to create a customer."),
       [])
  | some _ =>
    match custResp with
    | .transportError =>
        (Except.error (ApiError.http 502 "Customer service unavailable"),
         [DSRequest.customerPost customer.core])
    | .resp status text customer_data =>
        if 400 ≤ status then
          (Except.error (ApiError.http status text),
           [DSRequest.customerPost customer.core])
        else
          match customer_data.university_id with
          | none =>
              (Except.error (ApiError.exn "KeyError: university_id"),
               [DSRequest.customerPost customer.core])
          | some uni_id =>
              match create_addresses_loop uni_id addrResp 0 customer.address with
              | (Except.ok created, trace) =>
                  (Except.ok { core := customer_data, address := created },
                   DSRequest.customerPost customer.core :: trace)
              | (Except.error e, trace) =>
                  (Except.error e, DSRequest.customerPost customer.core :: trace)

/-- `get_customer` (`GET /customers/{university_id}` handler body,
`src/main.py` lines 350-388): both atomic fetches are dispatched to the
worker pool, then `future_customer.result()` is consumed first — so a
customer-fetch error surfaces regardless of the address fetch's outcome
(whose exception, if any, is never retrieved) — then the address result;
on success the results are zipped into a `CustomerRead`. -/
def get_customer (university_id : String) (custR : DSResp CustomerCore)
    (addrR : DSResp (List AddressBase)) : Except ApiError CustomerRead :=
  match fetch_customer_atomic custR with
  | Except.error e => Except.error e
  | Except.ok customer_data =>
      match fetch_addresses_atomic addrR with
      | Except.error e => Except.error e
      | Except.ok addresses_data =>
          Except.ok { core := customer_data, address := addresses_data }

/-- The HTTP route `GET /customers/{university_id}`: FastAPI resolves the
`Depends(get_current_user)` parameter first, so an Auth-Gate failure
pre-empts the handler body. -/
def get_customer_route (secret : String) (now : Int) (h : AuthHeader)
    (university_id : String) (custR : DSResp CustomerCore)
    (addrR : DSResp (List AddressBase)) : Except ApiError CustomerRead :=
  match get_current_user secret now h with
  | Except.error e => Except.error e
  | Except.ok _ => get_customer university_id custR addrR

/-- `update_customer` (`PATCH /customers/{university_id}`, `src/main.py`
lines 391-427): PATCHes the core fields downstream (transport failure → 502,
404 → "Customer not found", other ≥400 → forwarded), then re-executes the
composite read by calling the `get_customer` function directly — a plain
Python call, so the Auth-Gate dependency of the GET route is not executed.
`publish_event` afterwards is fire-and-forget. -/
def update_customer (university_id : String) (update : CustomerUpdate)
    (patchResp : DSResp Unit) (custR : DSResp CustomerCore)
    (addrR : DSResp (List AddressBase)) : Except ApiError CustomerRead :=
  match patchResp with
  | .transportError =>
      Except.error (ApiError.http 502 "Customer service unavailable")
  | .resp status text _ =>
      if status = 404 then Except.error (ApiError.http 404 "Customer not found")
      else if 400 ≤ status then Except.error (ApiError.http status text)
      else get_customer university_id custR addrR

/-- The HTTP route `PATCH /customers/{university_id}`: declared without any
auth dependency, so the handler runs whatever the `Authorization` header
holds. -/
def update_customer_route (h : AuthHeader) (university_id : String)
    (update : CustomerUpdate) (patchResp : DSResp Unit)
    (custR : DSResp CustomerCore) (addrR : DSResp (List AddressBase)) :
    Except ApiError CustomerRead :=
  update_customer university_id update patchResp custR addrR

/-- `delete_customer` (`DELETE /customers/{university_id}`, `src/main.py`
lines 431-480): first DELETEs all addresses (transport failure → 502; any
status outside {200, 204, 404} → forwarded), then DELETEs the customer record
(transport failure → 502, 404 → "Customer not found", other ≥400 →
forwarded); on full success the route returns 204 with no content
(`Except.ok ()`).  The trace records the two downstream deletes in order. -/
def delete_customer (university_id : String) (addrDelResp : DSResp Unit)
    (custDelResp : DSResp Unit) : Except ApiError Unit × List DSRequest :=
  match addrDelResp with
  | .transportError =>
      (Except.error (ApiError.http 502 "Address service unavailable"),
       [DSRequest.addressDeleteAll university_id])
  | .resp astatus atext _ =>
      if ¬(astatus = 200 ∨ astatus = 204 ∨ astatus = 404) then
        (Except.error (ApiError.http astatus atext),
         [DSRequest.addressDeleteAll university_id])
      else
        match custDelResp with
        | .transportError =>
            (Except.error (ApiError.http 502 "Customer service unavailable"),
             [DSRequest.addressDeleteAll university_id,
              DSRequest.customerDelete university_id])
        | .resp cstatus ctext _ =>
            if cstatus = 404 then
              (Except.error (ApiError.http 404 "Customer not found"),
               [DSRequest.addressDeleteAll university_id,
                DSRequest.customerDelete university_id])
            else if 400 ≤ cstatus then
              (Except.error (ApiError.http cstatus ctext),
               [DSRequest.addressDeleteAll university_id,
                DSRequest.customerDelete university_id])
            else
              (Except.ok (),
               [DSRequest.addressDeleteAll university_id,
                DSRequest.customerDelete university_id])

/-- The POST to `{ADDRESS_SERVICE_URL}/addresses` at the end of
`create_address_for_customer` (after the FK check and the body/path
consistency check): transport failure → 502, ≥400 → forwarded, success → the
echoed `AddressRead`; the trace records the one address POST with the payload
actually sent. -/
def create_address_post (addr_payload : AddressPayload)
    (addrPostR : DSResp AddressPayload) :
    Except ApiError AddressPayload × List DSRequest :=
  match addrPostR with
  | .transportError =>
      (Except.error (ApiError.http 502 "Address service unavailable"),
       [DSRequest.addressPost addr_payload])
  | .resp status text body =>
      if 400 ≤ status then
        (Except.error (ApiError.http status text),
         [DSRequest.addressPost addr_payload])
      else
        (Except.ok body, [DSRequest.addressPost addr_payload])

/-- `create_address_for_customer` (`POST /customers/{university_id}/addresses`,
`src/main.py` lines 487-528): first the logical-foreign-key check
`fetch_customer_atomic(university_id)` (any failure aborts with that error
and no address call); then a body `university_id` differing from the path →
400; then the path value is force-written onto the payload and the address
is POSTed (transport failure → 502, ≥400 → forwarded, success → the echoed
`AddressRead`). -/
def create_address_for_customer (university_id : String)
    (address : AddressCreate) (custR : DSResp CustomerCore)
    (addrPostR : DSResp AddressPayload) :
    Except ApiError AddressPayload × List DSRequest :=
  -- The FK lookup `fetch_customer_atomic(university_id)` is issued
  -- unconditionally and first; the rest of the trace depends on its outcome.
  let rest : Except ApiError AddressPayload × List DSRequest :=
    match fetch_customer_atomic custR with
    | Except.error e => (Except.error e, [])
    | Except.ok _ =>
        match address.university_id with
        | some body_uni =>
            if body_uni ≠ university_id then
              (Except.error (ApiError.http 400 "university_id in path and body must match."),
               [])
            else
              create_address_post ⟨university_id, address.base⟩ addrPostR
        | none => create_address_post ⟨university_id, address.base⟩ addrPostR
  (rest.1, DSRequest.customerGet university_id :: rest.2)

/-- `pubsub_push` (`POST /pubsub/push`, `src/main.py` lines 143-157):
no `"message"` key → `{status: "invalid pubsub message"}` (HTTP 200);
otherwise `message.get("data")` (an `AttributeError` → 500 when the message
is not an object); a truthy `data` is passed through
`base64.b64decode(data).decode("utf-8")` (failures → 500), then
`{status: "ok"}` is returned. -/
def pubsub_push (envelope : List (String × Json)) : Except ApiError Json :=
  match envelope.lookup "message" with
  | none => Except.ok (Json.obj [("status", Json.str "invalid pubsub message")])
  | some message =>
      match message with
      | Json.obj mfields =>
          match mfields.lookup "data" with
          | none => Except.ok (Json.obj [("status", Json.str "ok")])
          | some data =>
              if data.truthy then
                match data with
                | Json.str s =>
                    match pyB64Decode s with
                    | none => Except.error (ApiError.exn "binascii.Error")
                    | some bs =>
                        if utf8Valid bs then
                          Except.ok (Json.obj [("status", Json.str "ok")])
                        else Except.error (ApiError.exn "UnicodeDecodeError")
                | _ => Except.error (ApiError.exn "TypeError")
              else Except.ok (Json.obj [("status", Json.str "ok")])
      | _ => Except.error (ApiError.exn "AttributeError")

/-- Whether the `data` entry of a push message survives
`base64.b64decode(data).decode("utf-8")` in `pubsub_push`: absent or falsy
data is never decoded; a truthy value must be a string that base64-decodes
to valid UTF-8. -/
def dataDecodes (data : Option Json) : Bool :=
  match data with
  | none => true
  | some d =>
      if d.truthy then
        match d with
        | Json.str s =>
            match pyB64Decode s with
            | some bs => utf8Valid bs
            | none => false
        | _ => false
      else true

/-- Whether the `"message"` value of a push envelope is processed without an
exception by `pubsub_push`: it must be an object (else `message.get("data")`
raises `AttributeError`) whose `data` entry survives decoding per
`dataDecodes`. -/
def messageDecodes (m : Json) : Bool :=
  match m with
  | Json.obj mfields => dataDecodes (mfields.lookup "data")
  | _ => false

/-! ## Sample values (the running example of `src/models/customer.py`) -/

/-- The example address of the `CustomerBase` schema. -/
def sampleAddress : AddressBase :=
  ⟨"123 Broadway Ave", "New York", "NY", "10027", "USA"⟩

/-- The example customer core fields of the `CustomerBase` schema. -/
def sampleCore : CustomerCore :=
  ⟨"Rahul", some "Kumar", "Singh", some "UNI1234", "rahul@columbia.edu",
   some "+1-234-567-8910", some "2000-07-15", "active"⟩

/-- The example `CustomerCreate` body: the sample core plus one address. -/
def sampleCreate : CustomerCreate := ⟨sampleCore, [sampleAddress]⟩

/-! ## Claims -/

/-- C1: for every `CustomerCreate` whose `university_id` is absent,
`create_customer` fails with HTTP 400 ("university_id is required to create
a customer.") and its downstream-call trace is empty — no call reaches the
Customer or the Address atomic service. -/
theorem create_customer_requires_university_id
    (customer : CustomerCreate) (custResp : DSResp CustomerCore)
    (addrResp : Nat → DSResp AddressBase)
    (hnone : customer.core.university_id = none) :
    create_customer customer custResp addrResp
      = (Except.error (ApiError.http 400 "university_id is required to create a customer."),
         []) := by
  unfold create_customer
  rw [hnone]

/-- Witness for C1: the sample body with `university_id` removed is rejected
with 400 and an empty downstream trace. -/
theorem create_customer_requires_university_id_witness :
    create_customer ⟨{ sampleCore with university_id := none }, [sampleAddress]⟩
        DSResp.transportError (fun _ => DSResp.transportError)
      = (Except.error (ApiError.http 400 "university_id is required to create a customer."),
         []) :=
  create_customer_requires_university_id _ _ _ rfl

/-- C3: whenever the Customer atomic service answers 404, the composite
`get_customer` fails with HTTP 404 "Customer not found" for every possible
Address-service outcome (success, any error status, or transport failure). -/
theorem get_customer_404_regardless_of_addresses
    (university_id text : String) (body : CustomerCore)
    (addrR : DSResp (List AddressBase)) :
    get_customer university_id (DSResp.resp 404 text body) addrR
      = Except.error (ApiError.http 404 "Customer not found") := rfl

/-- C4: `create_address_for_customer` whose customer lookup answers 404 fails
with HTTP 404 "Customer not found" and issues no Address-service call (its
trace is exactly the customer lookup); moreover for every downstream
behaviour the very first issued request is the customer-existence check. -/
theorem create_address_fk_check_first
    (university_id text : String) (b : CustomerCore) (address : AddressCreate)
    (custR : DSResp CustomerCore) (addrPostR : DSResp AddressPayload) :
    create_address_for_customer university_id address (DSResp.resp 404 text b) addrPostR
      = (Except.error (ApiError.http 404 "Customer not found"),
         [DSRequest.customerGet university_id])
    ∧ (create_address_for_customer university_id address custR addrPostR).2.head?
        = some (DSRequest.customerGet university_id) := by
  exact ⟨rfl, rfl⟩

/-- Helper for C5: the final address POST always carries exactly the payload
it was given, whatever the Address service answers. -/
lemma create_address_post_trace (p : AddressPayload) (r : DSResp AddressPayload) :
    (create_address_post p r).2 = [DSRequest.addressPost p] := by
  cases r with
  | transportError => rfl
  | resp status text body =>
      unfold create_address_post
      dsimp only
      split <;> rfl

/-- C5: in `create_address_for_customer` (here under a successful
customer-existence check, which precedes this validation), a body
`university_id` differing from the path parameter fails with HTTP 400
"university_id in path and body must match." and no address call is made;
otherwise (body `university_id` absent or equal to the path), the payload
POSTed to the Address atomic service has its `university_id` field set to
the path value, whatever the downstream answers. -/
theorem create_address_body_path_consistency
    (university_id ct : String) (cs : Nat) (cb : CustomerCore)
    (address : AddressCreate) (addrPostR : DSResp AddressPayload)
    (hcs : cs < 400) :
    (∀ body_uni, address.university_id = some body_uni → body_uni ≠ university_id →
        create_address_for_customer university_id address (DSResp.resp cs ct cb) addrPostR
          = (Except.error (ApiError.http 400 "university_id in path and body must match."),
             [DSRequest.customerGet university_id]))
    ∧ ((address.university_id = none ∨ address.university_id = some university_id) →
        (create_address_for_customer university_id address (DSResp.resp cs ct cb) addrPostR).2
          = [DSRequest.customerGet university_id,
             DSRequest.addressPost ⟨university_id, address.base⟩]) := by
  have hfetch : fetch_customer_atomic (DSResp.resp cs ct cb) = Except.ok cb := by
    unfold fetch_customer_atomic
    dsimp only
    rw [if_neg (by omega), if_neg (by omega)]
  constructor
  · intro body_uni hb hne
    unfold create_address_for_customer
    rw [hfetch, hb]
    dsimp only
    rw [if_pos hne]
  · intro hok
    unfold create_address_for_customer
    rw [hfetch]
    rcases hok with hnone | hsame
    · rw [hnone]
      dsimp only
      simp only [create_address_post_trace]
    · rw [hsame]
      dsimp only
      rw [if_neg (fun hne => hne rfl)]
      simp only [create_address_post_trace]

/-- Witness for C5: with an existing customer, a conflicting body
`university_id` is rejected with 400 and no address call; with no body
`university_id`, the POSTed payload carries the path value. -/
theorem create_address_body_path_consistency_witness :
    create_address_for_customer "UNI1234" ⟨sampleAddress, some "XX999"⟩
        (DSResp.resp 200 "" sampleCore) DSResp.transportError
      = (Except.error (ApiError.http 400 "university_id in path and body must match."),
         [DSRequest.customerGet "UNI1234"])
    ∧ (create_address_for_customer "UNI1234" ⟨sampleAddress, none⟩
        (DSResp.resp 200 "" sampleCore) (DSResp.resp 201 "" ⟨"UNI1234", sampleAddress⟩)).2
      = [DSRequest.customerGet "UNI1234",
         DSRequest.addressPost ⟨"UNI1234", sampleAddress⟩] := by
  constructor
  · exact (create_address_body_path_consistency "UNI1234" "" 200 sampleCore
      ⟨sampleAddress, some "XX999"⟩ DSResp.transportError (by omega)).1
      "XX999" rfl (by decide)
  · exact (create_address_body_path_consistency "UNI1234" "" 200 sampleCore
      ⟨sampleAddress, none⟩ (DSResp.resp 201 "" ⟨"UNI1234", sampleAddress⟩) (by omega)).2
      (Or.inl rfl)

/-- C6: `delete_customer` issues the address delete first and the customer
delete second; an address-delete status in {200, 204, 404} counts as success
and lets the customer delete proceed; a 404 on the customer delete is an
error ("Customer not found"), any other ≥400 is forwarded, and on full
success the route returns 204 with no content; an address-delete status
outside {200, 204, 404} aborts with that status before any customer call. -/
theorem delete_customer_protocol
    (university_id atext ctext : String) (astatus cstatus : Nat)
    (hsucc : astatus = 200 ∨ astatus = 204 ∨ astatus = 404) :
    ((delete_customer university_id (DSResp.resp astatus atext ())
        (DSResp.resp cstatus ctext ())).2
      = [DSRequest.addressDeleteAll university_id,
         DSRequest.customerDelete university_id])
    ∧ (cstatus = 404 →
        (delete_customer university_id (DSResp.resp astatus atext ())
            (DSResp.resp cstatus ctext ())).1
          = Except.error (ApiError.http 404 "Customer not found"))
    ∧ (cstatus < 400 →
        (delete_customer university_id (DSResp.resp astatus atext ())
            (DSResp.resp cstatus ctext ())).1 = Except.ok ())
    ∧ (∀ bstatus btext, ¬(bstatus = 200 ∨ bstatus = 204 ∨ bstatus = 404) →
        delete_customer university_id (DSResp.resp bstatus btext ())
            (DSResp.resp cstatus ctext ())
          = (Except.error (ApiError.http bstatus btext),
             [DSRequest.addressDeleteAll university_id])) := by
  refine ⟨?_, ?_, ?_, ?_⟩
  · unfold delete_customer
    dsimp only
    rw [if_neg (not_not_intro hsucc)]
    split
    · rfl
    · split <;> rfl
  · intro h404
    unfold delete_customer
    dsimp only
    rw [if_neg (not_not_intro hsucc), if_pos h404]
  · intro hlt
    unfold delete_customer
    dsimp only
    rw [if_neg (not_not_intro hsucc), if_neg (by omega), if_neg (by omega)]
  · intro bstatus btext hb
    unfold delete_customer
    dsimp only
    rw [if_pos hb]

/-- Witness for C6: a 204 from both deletes yields 204/no-content with the
address delete traced before the customer delete. -/
theorem delete_customer_protocol_witness :
    (delete_customer "UNI1234" (DSResp.resp 204 "" ()) (DSResp.resp 204 "" ())).1
      = Except.ok ()
    ∧ (delete_customer "UNI1234" (DSResp.resp 204 "" ()) (DSResp.resp 204 "" ())).2
      = [DSRequest.addressDeleteAll "UNI1234", DSRequest.customerDelete "UNI1234"] := by
  constructor
  · exact (delete_customer_protocol "UNI1234" "" "" 204 204
      (Or.inr (Or.inl rfl))).2.2.1 (by omega)
  · exact (delete_customer_protocol "UNI1234" "" "" 204 204
      (Or.inr (Or.inl rfl))).1

/-- Helper for C10: `fetch_customer_atomic` only raises plain
`HTTPException`s, never the Auth Gate's 401. -/
lemma fetch_customer_atomic_not_gate (r : DSResp CustomerCore) (d : String) :
    fetch_customer_atomic r ≠ Except.error (ApiError.unauthorizedGate d) := by
  unfold fetch_customer_atomic
  cases r with
  | transportError => simp
  | resp status text body =>
      dsimp only
      split
      · simp
      · split <;> simp

/-- Helper for C10: `fetch_addresses_atomic` only raises plain
`HTTPException`s, never the Auth Gate's 401. -/
lemma fetch_addresses_atomic_not_gate (r : DSResp (List AddressBase)) (d : String) :
    fetch_addresses_atomic r ≠ Except.error (ApiError.unauthorizedGate d) := by
  unfold fetch_addresses_atomic
  cases r with
  | transportError => simp
  | resp status text body =>
      dsimp only
      split <;> simp

/-- Helper for C10: the composite read body never produces the Auth Gate's
401 (its errors all come from the two downstream fetches). -/
lemma get_customer_not_gate (university_id : String) (custR : DSResp CustomerCore)
    (addrR : DSResp (List AddressBase)) (d : String) :
    get_customer university_id custR addrR
      ≠ Except.error (ApiError.unauthorizedGate d) := by
  intro hcontra
  unfold get_customer at hcontra
  cases hc : fetch_customer_atomic custR with
  | error e =>
      rw [hc] at hcontra
      simp only [Except.error.injEq] at hcontra
      exact fetch_customer_atomic_not_gate custR d (by rw [hc, hcontra])
  | ok c =>
      rw [hc] at hcontra
      cases ha : fetch_addresses_atomic addrR with
      | error e2 =>
          rw [ha] at hcontra
          simp only [Except.error.injEq] at hcontra
          exact fetch_addresses_atomic_not_gate addrR d (by rw [ha, hcontra])
      | ok l =>
          rw [ha] at hcontra
          exact Except.noConfusion hcontra

/-- C10: the `PATCH /customers/{university_id}` route carries no auth
dependency: its outcome is the same for every `Authorization` header and is
never the Auth Gate's `Unauthorized`; by contrast the GET route with a
missing header fails 401, while the update's internal re-read executes the
`get_customer` body directly, bypassing the gate. -/
theorem update_customer_bypasses_auth_gate
    (h h' : AuthHeader) (secret : String) (now : Int) (university_id : String)
    (update : CustomerUpdate) (patchResp : DSResp Unit)
    (custR : DSResp CustomerCore) (addrR : DSResp (List AddressBase)) (t : String) :
    update_customer_route h university_id update patchResp custR addrR
      = update_customer_route h' university_id update patchResp custR addrR
    ∧ (∀ d, update_customer_route h university_id update patchResp custR addrR
          ≠ Except.error (ApiError.unauthorizedGate d))
    ∧ get_customer_route secret now AuthHeader.missing university_id custR addrR
        = Except.error (ApiError.unauthorizedGate "Missing or invalid Authorization header")
    ∧ update_customer_route AuthHeader.missing university_id update
          (DSResp.resp 200 t ()) custR addrR
        = get_customer university_id custR addrR := by
  refine ⟨rfl, ?_, rfl, rfl⟩
  intro d
  unfold update_customer_route update_customer
  cases patchResp with
  | transportError => simp
  | resp status text u =>
      dsimp only
      split
      · simp
      · split
        · simp
        · exact get_customer_not_gate university_id custR addrR d

/-- C8 counterexample: with both message-bus environment options absent,
`os.getenv`'s built-in defaults ("cloud-computing-478817", "customerTopic")
make the module-initialisation guard true, so `publish_event` performs a
publish call — publishing is NOT disabled by absence. -/
theorem publish_not_disabled_by_absent_env :
    publisherEnabled none none = true
    ∧ publish_event (publisherEnabled none none) "CustomerCreated" (Json.obj [])
        = [{ event_type := "CustomerCreated", data := Json.obj [],
             university_id := none }]
    ∧ publish_event (publisherEnabled none none) "CustomerCreated" (Json.obj [])
        ≠ [] := by
  refine ⟨rfl, rfl, ?_⟩
  intro hcontra
  exact List.noConfusion
    ((rfl : ([{ event_type := "CustomerCreated", data := Json.obj [],
                university_id := none }] : List PublishCall)
        = publish_event (publisherEnabled none none) "CustomerCreated"
            (Json.obj [])).trans hcontra)

/-- C8 amended: `publish_event` is a no-op exactly when the resolved
message-bus project or topic is the empty string (an env option explicitly
set to ""); when the options are absent, the non-empty defaults apply and a
publish call is performed. -/
theorem publish_event_noop_iff_blank_config
    (projectEnv topicEnv : Option String) (event_type : String) (payload : Json) :
    publish_event (publisherEnabled projectEnv topicEnv) event_type payload = []
      ↔ PROJECT_ID projectEnv = "" ∨ PUBSUB_TOPIC topicEnv = "" := by
  unfold publish_event publisherEnabled
  by_cases h1 : PROJECT_ID projectEnv = "" <;>
    by_cases h2 : PUBSUB_TOPIC topicEnv = "" <;>
      simp [h1, h2]

/-- C9 counterexample: an envelope that does contain a `"message"` key but
whose `data` is the base64 of the non-UTF-8 byte 0xFF makes the handler
raise (`UnicodeDecodeError`, HTTP 500) instead of returning
`{status: "ok"}`. -/
theorem pubsub_push_errors_on_undecodable_data :
    pubsub_push [("message", Json.obj [("data", Json.str "/w==")])]
      = Except.error (ApiError.exn "UnicodeDecodeError")
    ∧ ∀ j, pubsub_push [("message", Json.obj [("data", Json.str "/w==")])]
        ≠ Except.ok j := by
  have he : pubsub_push [("message", Json.obj [("data", Json.str "/w==")])]
      = Except.error (ApiError.exn "UnicodeDecodeError") := rfl
  exact ⟨he, fun j hcontra => Except.noConfusion (he.symm.trans hcontra)⟩

/-- C9 amended: complete characterization of `pubsub_push`.  An envelope
lacking the `"message"` key yields `{status: "invalid pubsub message"}`.
For every envelope whose `"message"` key is present with value `m`:
the handler returns `{status: "ok"}` exactly when `m` is an object whose
`data` entry is absent, falsy, or a string that base64-decodes (Python
non-strict) to valid UTF-8; on any other message contents it raises an
unhandled exception (HTTP 500); and it never returns the invalid-message
body — that body arises only when the `"message"` key is absent. -/
theorem pubsub_push_characterization (envelope : List (String × Json)) :
    (envelope.lookup "message" = none →
      pubsub_push envelope
        = Except.ok (Json.obj [("status", Json.str "invalid pubsub message")]))
    ∧ (∀ m, envelope.lookup "message" = some m →
        (pubsub_push envelope = Except.ok (Json.obj [("status", Json.str "ok")])
          ↔ messageDecodes m = true)
        ∧ (messageDecodes m = false →
            ∃ s, pubsub_push envelope = Except.error (ApiError.exn s))
        ∧ pubsub_push envelope
            ≠ Except.ok (Json.obj [("status", Json.str "invalid pubsub message")])) := by
  constructor
  · intro hno
    unfold pubsub_push
    rw [hno]
  · intro m hm
    unfold pubsub_push messageDecodes
    rw [hm]
    dsimp only
    cases m with
    | obj mfields =>
        dsimp only
        unfold dataDecodes
        cases hd : mfields.lookup "data" with
        | none => exact ⟨by simp, by simp, by simp⟩
        | some d =>
            dsimp only
            by_cases ht : d.truthy
            · rw [if_pos ht, if_pos ht]
              cases d with
              | str s =>
                  dsimp only
                  cases hb : pyB64Decode s with
                  | none =>
                      exact ⟨by simp, fun _ => ⟨"binascii.Error", rfl⟩, by simp⟩
                  | some bs =>
                      dsimp only
                      by_cases hu : utf8Valid bs
                      · rw [if_pos hu]
                        exact ⟨by simp [hu], by simp [hu], by simp⟩
                      · rw [if_neg hu]
                        exact ⟨by simp [hu], fun _ => ⟨"UnicodeDecodeError", rfl⟩,
                               by simp⟩
              | null => exact ⟨by simp, fun _ => ⟨"TypeError", rfl⟩, by simp⟩
              | bool b => exact ⟨by simp, fun _ => ⟨"TypeError", rfl⟩, by simp⟩
              | num n => exact ⟨by simp, fun _ => ⟨"TypeError", rfl⟩, by simp⟩
              | arr l => exact ⟨by simp, fun _ => ⟨"TypeError", rfl⟩, by simp⟩
              | obj o => exact ⟨by simp, fun _ => ⟨"TypeError", rfl⟩, by simp⟩
            · rw [if_neg ht, if_neg ht]
              exact ⟨by simp, by simp, by simp⟩
    | null => exact ⟨by simp, fun _ => ⟨"AttributeError", rfl⟩, by simp⟩
    | bool b => exact ⟨by simp, fun _ => ⟨"AttributeError", rfl⟩, by simp⟩
    | num n => exact ⟨by simp, fun _ => ⟨"AttributeError", rfl⟩, by simp⟩
    | str s => exact ⟨by simp, fun _ => ⟨"AttributeError", rfl⟩, by simp⟩
    | arr l => exact ⟨by simp, fun _ => ⟨"AttributeError", rfl⟩, by simp⟩

/-- Witness for the amended C9, exercising all three regimes: a message
whose `data` is the base64 of "hi" is accepted with `{status: "ok"}`; a
message that is not an object raises an unhandled exception; an envelope
without `"message"` gets the invalid-message body. -/
theorem pubsub_push_characterization_witness :
    pubsub_push [("message", Json.obj [("data", Json.str "aGk=")])]
      = Except.ok (Json.obj [("status", Json.str "ok")])
    ∧ (∃ s, pubsub_push [("message", Json.str "oops")]
        = Except.error (ApiError.exn s))
    ∧ pubsub_push [("other", Json.null)]
      = Except.ok (Json.obj [("status", Json.str "invalid pubsub message")]) := by
  refine ⟨?_, ?_, ?_⟩
  · exact (((pubsub_push_characterization
      [("message", Json.obj [("data", Json.str "aGk=")])]).2
        (Json.obj [("data", Json.str "aGk=")]) rfl).1).mpr rfl
  · exact ((pubsub_push_characterization [("message", Json.str "oops")]).2
      (Json.str "oops") rfl).2.1 rfl
  · exact (pubsub_push_characterization [("other", Json.null)]).1 rfl

/-- Helper for C2: when every address POST succeeds (status < 400) and echoes
the address it was sent, the creation loop returns exactly the submitted list
and its trace POSTs each address under the given `university_id`. -/
lemma create_addresses_loop_echo (uni_id : String)
    (addrResp : Nat → DSResp AddressBase) (sts : Nat → Nat) (txts : Nat → String)
    (hsts : ∀ i, sts i < 400) :
    ∀ (l : List AddressBase) (k : Nat),
      (∀ i a, l.get? i = some a →
        addrResp (k + i) = DSResp.resp (sts (k + i)) (txts (k + i)) a) →
      create_addresses_loop uni_id addrResp k l
        = (Except.ok l, l.map (fun a => DSRequest.addressPost ⟨uni_id, a⟩)) := by
  intro l
  induction l with
  | nil => intro k _; rfl
  | cons a rest ih =>
      intro k hk
      have h0 : addrResp k = DSResp.resp (sts k) (txts k) a := hk 0 a rfl
      have hrest : ∀ i b, rest.get? i = some b →
          addrResp (k + 1 + i) = DSResp.resp (sts (k + 1 + i)) (txts (k + 1 + i)) b := by
        intro i b hb
        have hkib := hk (i + 1) b hb
        have e : k + (i + 1) = k + 1 + i := by omega
        rw [e] at hkib
        exact hkib
      unfold create_addresses_loop
      rw [h0]
      dsimp only
      rw [if_neg (by have := hsts k; omega), ih (k + 1) hrest]
      rfl

/-- C2: for every pydantic-valid `CustomerCreate` with `university_id = u`,
if the Customer atomic create succeeds echoing the core fields it was sent
and every Address atomic create succeeds echoing the address it was sent,
then `create_customer` succeeds (route status 201) with an aggregated view
whose address list equals exactly the submitted list, and its trace creates
each submitted address in association with `u`. -/
theorem create_customer_aggregates_submitted_addresses
    (customer : CustomerCreate) (u : String) (cs : Nat) (ct : String)
    (addrResp : Nat → DSResp AddressBase) (sts : Nat → Nat) (txts : Nat → String)
    (hu : customer.core.university_id = some u)
    (hvalid : customer.valid = true)
    (hcs : cs < 400)
    (haddr : ∀ i a, customer.address.get? i = some a →
        addrResp i = DSResp.resp (sts i) (txts i) a)
    (hsts : ∀ i, sts i < 400) :
    create_customer customer (DSResp.resp cs ct customer.core) addrResp
      = (Except.ok { core := customer.core, address := customer.address },
         DSRequest.customerPost customer.core
           :: customer.address.map (fun a => DSRequest.addressPost ⟨u, a⟩)) := by
  have hloop := create_addresses_loop_echo u addrResp sts txts hsts
    customer.address 0 (by
      intro i a ha
      have := haddr i a ha
      simpa using this)
  unfold create_customer
  rw [hu]
  dsimp only
  rw [if_neg (by omega), hu]
  dsimp only
  rw [hloop]

/-- Witness for C2: creating the sample customer (one address) with echoing
201 downstream services returns the submitted address list and POSTs the
address under "UNI1234". -/
theorem create_customer_aggregates_submitted_addresses_witness :
    create_customer sampleCreate (DSResp.resp 201 "" sampleCore)
        (fun _ => DSResp.resp 201 "" sampleAddress)
      = (Except.ok { core := sampleCore, address := [sampleAddress] },
         [DSRequest.customerPost sampleCore,
          DSRequest.addressPost ⟨"UNI1234", sampleAddress⟩]) := by
  have h := create_customer_aggregates_submitted_addresses sampleCreate "UNI1234"
    201 "" (fun _ => DSResp.resp 201 "" sampleAddress) (fun _ => 201) (fun _ => "")
    rfl (by decide) (by omega)
    (by
      intro i a ha
      cases i with
      | zero =>
          simp only [sampleCreate, List.get?] at ha
          cases ha
          rfl
      | succ n =>
          simp only [sampleCreate, List.get?, List.get?_nil] at ha
          cases n <;> simp_all [List.get?])
    (fun _ => Nat.lt_of_sub_eq_succ rfl)
  simpa using h

/-- C7: a token minted by `create_access_token` and verified (through the
Auth Gate) before its expiry `now0 + ttl` with the signature unmodified
succeeds and returns the original claims together with that (future) `exp`;
verifying any bearer token at or after its expiry fails with the gate's
`Unauthorized`. -/
theorem token_roundtrip_and_expiry
    (secret : String) (ttl now0 now : Int) (claims : TokenPayload) :
    (now < (create_access_token secret ttl now0 claims).exp →
      get_current_user secret now
          (AuthHeader.bearer (create_access_token secret ttl now0 claims))
        = Except.ok ⟨claims.sub, claims.email, claims.name, now0 + ttl * 60⟩)
    ∧ (∀ t : Jwt, t.exp ≤ now →
        get_current_user secret now (AuthHeader.bearer t)
          = Except.error (ApiError.unauthorizedGate "Invalid or expired token")) := by
  constructor
  · intro hlt
    unfold get_current_user verify_access_token create_access_token
    dsimp only
    rw [if_pos rfl, if_neg (by
      unfold create_access_token at hlt
      dsimp only at hlt
      omega)]
  · intro t hexp
    unfold get_current_user verify_access_token
    dsimp only
    by_cases hs : t.sig = hmacSign secret t.payload t.exp
    · rw [if_pos hs, if_pos hexp]
    · rw [if_neg hs]

/-- Witness for C7: issuing a token for {u1, a@x.edu, A} at time 0 with the
default 60-minute TTL and verifying at time 10 returns the claims with
exp = 3600; verifying the same token at time 3600 (its expiry) fails with
the gate's 401. -/
theorem token_roundtrip_and_expiry_witness :
    get_current_user "secret" 10
        (AuthHeader.bearer (create_access_token "secret" (JWT_EXPIRE_MINUTES none) 0
          ⟨"u1", "a@x.edu", "A"⟩))
      = Except.ok ⟨"u1", "a@x.edu", "A", 3600⟩
    ∧ get_current_user "secret" 3600
        (AuthHeader.bearer (create_access_token "secret" (JWT_EXPIRE_MINUTES none) 0
          ⟨"u1", "a@x.edu", "A"⟩))
      = Except.error (ApiError.unauthorizedGate "Invalid or expired token") := by
  constructor
  · exact (token_roundtrip_and_expiry "secret" (JWT_EXPIRE_MINUTES none) 0 10
      ⟨"u1", "a@x.edu", "A"⟩).1 (by decide)
  · exact (token_roundtrip_and_expiry "secret" (JWT_EXPIRE_MINUTES none) 0 3600
      ⟨"u1", "a@x.edu", "A"⟩).2
      (create_access_token "secret" (JWT_EXPIRE_MINUTES none) 0 ⟨"u1", "a@x.edu", "A"⟩)
      (by decide)

end CustomerComposite
